import Mathlib

/-!
Verification of the startup/VC scoring core of the vcSource repository.

The definitions below are shallow embeddings of the Python scoring code:
`src/models/fit_metric.py`, `src/models/optimized_fit_metric.py`,
`src/metrics/quality_scorer.py` and the conflict / portfolio-fit /
ranking logic of `src/unified_vc_sourcing_agent.py`.

Strings model Python `str` (lower-casing via `Char.toLower`, substring
test via an explicit scanner mirroring the Python membership test).  Scores use `ℚ`
(exact arithmetic in place of Python floats); the embedding-based text
similarity uses `ℝ` since it involves a square root.  Optional fields
are `Option` values, and Python truthiness of an optional string
(`None` or `""` are falsy) is made explicit.
-/

/-! ### String helpers -/

/-- Lower-case every character of a string (model of Python `str.lower`). -/
def lowerStr (s : String) : String :=
  String.mk (s.data.map Char.toLower)

/-- Prefix test: `needlePre ns hs` is true when `ns` is an initial segment of `hs`. -/
def needlePre : List Char → List Char → Bool
  | [], _ => true
  | _ :: _, [] => false
  | a :: as, b :: bs => a == b && needlePre as bs

/-- Substring scan: `containsSub ns hs` models the Python substring test of `ns` inside `hs`. -/
def containsSub (ns : List Char) : List Char → Bool
  | [] => ns.isEmpty
  | c :: rest => needlePre ns (c :: rest) || containsSub ns rest

/-- Substring test on strings: `subStr n h` models Python `n in h`. -/
def subStr (n h : String) : Bool :=
  containsSub n.data h.data

/-- Python truthiness of an optional string: `None` and `""` are falsy. -/
def truthyStr : Option String → Bool
  | none => false
  | some s => !s.isEmpty

/-- Python truthiness of an optional int: `None` and `0` are falsy. -/
def truthyInt : Option Int → Bool
  | none => false
  | some n => n != 0

/-- The lower-cased contents of an optional string (`""` when absent). -/
def lowerOpt (o : Option String) : String :=
  lowerStr (o.getD "")

/-! ### Data model (src/data/schemas.py) -/

/-- Model of `CompanyProfile` (the fields consumed by the scoring core). -/
structure CompanyProfile where
  name : String
  description : Option String := none
  industry : Option String := none
  location : Option String := none
  founded_year : Option Int := none
  funding_stage : Option String := none
deriving DecidableEq

/-- Model of `FounderProfile` (the fields consumed by the scoring core). -/
structure FounderProfile where
  name : String
  title : Option String := none
  experience : Option String := none
  education : Option String := none
  linkedin_connections : Option Int := none
  endorsements : Option Int := none
deriving DecidableEq

/-- Structured conflict dictionary (fixed key set, §4.5 of the spec). -/
structure ConflictInfo where
  has_conflicts : Bool
  conflict_companies : List String
  conflict_types : List String
  severity : String
deriving DecidableEq

/-- Structured portfolio-fit dictionary (fixed key set, §4.6 of the spec). -/
structure PortfolioFitInfo where
  portfolio_fit_score : ℚ
  reasoning : List String
deriving DecidableEq

/-- Model of `StartupProfile`: a company, its founders, and derived fields. -/
structure StartupProfile where
  company : CompanyProfile
  founders : List FounderProfile := []
  quality_score : Option ℚ := none
  portfolio_conflicts : Option ConflictInfo := none
  portfolio_fit : Option PortfolioFitInfo := none
deriving DecidableEq

/-- Model of `VCProfile` (the fields consumed by the scoring core). -/
structure VCProfile where
  name : String
  investment_thesis : Option String := none
  focus_areas : List String := []
  investment_stages : List String := []
  portfolio_companies : List String := []
  geographic_focus : List String := []
deriving DecidableEq

/-- A resolved portfolio company (name, industry, description). -/
structure PortfolioCompany where
  name : String
  industry : Option String := none
  description : Option String := none
deriving DecidableEq

/-- Model of `FitMetrics`: the record produced per scored startup. -/
structure FitMetrics where
  startup_id : String
  vc_firm : String
  overall_score : ℚ
  text_similarity : ℚ
  industry_alignment : ℚ
  stage_alignment : ℚ
  geographic_alignment : ℚ
  network_proximity : ℚ
deriving DecidableEq

/-! ### Rule-based alignment scorers (src/models/fit_metric.py)

`FitMetricCalculator._calculate_industry_alignment` uses
`difflib.SequenceMatcher` in one branch; that fuzzy matcher is passed in
as a parameter `wordSim` (the structure of the scorer does not depend on
it).  All other branches are embedded literally. -/

/-- Model of `FitMetricCalculator._get_related_industries`. -/
def get_related_industries (industry : String) : List String :=
  if industry == "fintech" then
    ["financial services", "banking", "payments", "insurtech"]
  else if industry == "healthtech" then
    ["healthcare", "medical", "biotech", "digital health"]
  else if industry == "e-commerce" then
    ["retail", "marketplace", "online shopping"]
  else if industry == "saas" then
    ["software", "enterprise", "b2b", "cloud"]
  else if industry == "ai/ml" then
    ["artificial intelligence", "machine learning", "data science"]
  else if industry == "mobile" then
    ["mobile app", "ios", "android", "mobile gaming"]
  else []

/-- Model of `FitMetricCalculator._calculate_industry_alignment`, parameterised by
the fuzzy word-similarity function (`SequenceMatcher(...).ratio` in the
source). -/
def calculate_industry_alignment (wordSim : String → String → ℚ)
    (startup : StartupProfile) (vc : VCProfile) : ℚ :=
  if !truthyStr startup.company.industry || vc.focus_areas.isEmpty then 0
  else
    let startup_industry := lowerOpt startup.company.industry
    let vc_focus_areas := vc.focus_areas.map lowerStr
    if vc_focus_areas.contains startup_industry then 100
    else if vc_focus_areas.any (fun focus_area =>
        subStr startup_industry focus_area || subStr focus_area startup_industry ||
        wordSim startup_industry focus_area > 7/10) then 75
    else if (get_related_industries startup_industry).any
        (fun related => vc_focus_areas.contains related) then 50
    else 0

/-- Model of `OptimizedFitMetricCalculator._calculate_industry_alignment`
(src/models/optimized_fit_metric.py): no fuzzy-ratio branch and no
related-industry branch. -/
def industry_alignment_optimized (startup : StartupProfile) (vc : VCProfile) : ℚ :=
  if !truthyStr startup.company.industry || vc.focus_areas.isEmpty then 0
  else
    let startup_industry := lowerOpt startup.company.industry
    let vc_focus_areas := vc.focus_areas.map lowerStr
    if vc_focus_areas.contains startup_industry then 100
    else if vc_focus_areas.any (fun focus_area =>
        subStr startup_industry focus_area || subStr focus_area startup_industry) then 75
    else 0

/-- The fixed stage hierarchy of `_calculate_stage_alignment`
(`stage_hierarchy.get(stage, 0)`). -/
def stage_hierarchy (stage : String) : ℤ :=
  if stage == "pre-seed" then 1
  else if stage == "seed" then 2
  else if stage == "series-a" then 3
  else if stage == "series-b" then 4
  else if stage == "series-c" then 5
  else if stage == "growth" then 6
  else 0

/-- The `for vc_stage in vc_stages` loop of `_calculate_stage_alignment`:
returns on the first stage whose ordinal distance is within 2
(75 when ≤ 1, else 50), and 0 after the loop. -/
def stage_loop (startup_stage_num : ℤ) : List String → ℚ
  | [] => 0
  | vc_stage :: rest =>
    let vc_stage_num := stage_hierarchy vc_stage
    if (startup_stage_num - vc_stage_num).natAbs ≤ 1 then 75
    else if (startup_stage_num - vc_stage_num).natAbs ≤ 2 then 50
    else stage_loop startup_stage_num rest

/-- Model of `FitMetricCalculator._calculate_stage_alignment`. -/
def calculate_stage_alignment (startup : StartupProfile) (vc : VCProfile) : ℚ :=
  if !truthyStr startup.company.funding_stage || vc.investment_stages.isEmpty then 0
  else
    let startup_stage := lowerOpt startup.company.funding_stage
    let vc_stages := vc.investment_stages.map lowerStr
    if vc_stages.contains startup_stage then 100
    else stage_loop (stage_hierarchy startup_stage) vc_stages

/-- Model of `FitMetricCalculator._get_region`. -/
def get_region (location : String) : String :=
  let lo := lowerStr location
  if ["san francisco", "palo alto", "mountain view"].any (fun c => subStr c lo) then "bay area"
  else if ["new york", "brooklyn", "manhattan"].any (fun c => subStr c lo) then "new york"
  else if ["austin", "dallas", "houston"].any (fun c => subStr c lo) then "texas"
  else if ["boston", "cambridge"].any (fun c => subStr c lo) then "boston"
  else "other"

/-- Model of `FitMetricCalculator._calculate_geographic_alignment`. -/
def calculate_geographic_alignment (startup : StartupProfile) (vc : VCProfile) : ℚ :=
  if !truthyStr startup.company.location || vc.geographic_focus.isEmpty then 0
  else
    let startup_location := lowerOpt startup.company.location
    let vc_locations := vc.geographic_focus.map lowerStr
    if vc_locations.contains startup_location then 100
    else if (startup_location.splitOn ", ").any (fun part => vc_locations.contains part) then 75
    else if vc_locations.any (fun vc_loc => get_region startup_location == get_region vc_loc)
      then 50
    else 0

/-- Model of `FitMetricCalculator._evaluate_experience_quality` (the network-proximity
helper: +10 per matched keyword, capped at 50). -/
def evaluate_experience_quality (experience : String) : ℚ :=
  let experience_lower := lowerStr experience
  let relevant_keywords := ["founder", "ceo", "cto", "co-founder", "startup", "entrepreneur",
    "google", "facebook", "amazon", "apple", "microsoft", "netflix",
    "uber", "airbnb", "stripe", "square", "palantir"]
  min 50 (10 * ((relevant_keywords.filter (fun k => subStr k experience_lower)).length : ℚ))

/-- The per-founder score accumulated inside
`FitMetricCalculator._calculate_network_proximity`: connection tiers
(0-30), endorsement tiers (0-20) and experience quality (0-50). -/
def founder_network_points (f : FounderProfile) : ℚ :=
  (if truthyInt f.linkedin_connections then
    let c := f.linkedin_connections.getD 0
    if c > 1000 then 30 else if c > 500 then 20 else if c > 200 then 10 else 0
   else 0)
  + (if truthyInt f.endorsements then
    let e := f.endorsements.getD 0
    if e > 50 then 20 else if e > 20 then 15 else if e > 10 then 10 else 0
   else 0)
  + (if truthyStr f.experience then evaluate_experience_quality (f.experience.getD "") else 0)

/-- Model of `FitMetricCalculator._calculate_network_proximity`: 0 with no founders,
else the per-founder scores averaged and capped at 100.  The `vc_profile`
argument is unused in the source as well. -/
def calculate_network_proximity (startup : StartupProfile) (vc : VCProfile) : ℚ :=
  if startup.founders.length = 0 then 0
  else
    min 100
      ((startup.founders.map founder_network_points).sum / (startup.founders.length : ℚ))

/-! ### Quality scorer (src/metrics/quality_scorer.py)

The keyword tables are copied verbatim from the `QualityScorer`
constructor.  Python iterates sets/dicts whose elements are pairwise
distinct; the scores only ever sum over matches, so list order is
irrelevant. -/

/-- Model of `QualityScorer.prestigious_companies`. -/
def prestigious_companies : List String :=
  ["google", "facebook", "meta", "amazon", "apple", "microsoft", "netflix",
   "uber", "airbnb", "stripe", "square", "palantir", "tesla", "spacex",
   "linkedin", "twitter", "snapchat", "instagram", "whatsapp", "zoom",
   "salesforce", "oracle", "adobe", "intel", "nvidia", "amd", "cisco",
   "goldman sachs", "mckinsey", "bain", "bcg", "deloitte", "pwc"]

/-- Model of `QualityScorer.prestigious_universities`. -/
def prestigious_universities : List String :=
  ["stanford", "harvard", "mit", "berkeley", "caltech", "princeton",
   "yale", "columbia", "upenn", "cornell", "brown", "dartmouth",
   "duke", "northwestern", "chicago", "nyu", "usc", "ucla", "ucsd",
   "oxford", "cambridge", "imperial", "lse", "eth zurich", "tsinghua"]

/-- Model of `QualityScorer.prestigious_honors` (honor keyword, point value). -/
def prestigious_honors : List (String × ℚ) :=
  [("rhodes scholar", 25), ("marshall scholar", 25), ("fulbright scholar", 20),
   ("gates cambridge", 20), ("truman scholar", 18), ("goldwater scholar", 15),
   ("churchill scholar", 20), ("mitchell scholar", 18), ("schwarzman scholar", 20),
   ("knight-hennessy", 25), ("neuroscience scholar", 15), ("neo scholar", 20),
   ("y combinator", 30), ("y combinator alumni", 25), ("techstars", 15),
   ("500 startups", 12), ("startup chile", 10), ("masschallenge", 8),
   ("founder institute", 5),
   ("rise fellow", 25), ("kleiner perkins fellow", 25), ("kp fellow", 25),
   ("greylock fellow", 25), ("sequoia scout", 20), ("first round fellow", 20),
   ("andreessen horowitz scout", 20), ("a16z scout", 20), ("thiel fellow", 30),
   ("thiel fellowship", 30), ("forbes 30 under 30", 20), ("fortune 40 under 40", 18),
   ("inc 30 under 30", 15),
   ("turing award", 50), ("nobel prize", 50), ("macarthur fellow", 35),
   ("macarthur genius", 35), ("sloan fellow", 25), ("packard fellow", 25),
   ("guggenheim fellow", 20), ("national science foundation", 15),
   ("nsf graduate fellow", 15), ("nsf postdoc", 12),
   ("google science fair", 15), ("intel isef", 12), ("regeneron sts", 15),
   ("davidson fellow", 15), ("google code-in", 8), ("google summer of code", 8),
   ("facebook hackathon", 5), ("microsoft imagine cup", 8),
   ("west point", 20), ("naval academy", 20), ("air force academy", 20),
   ("coast guard academy", 18), ("merchant marine academy", 15),
   ("white house fellow", 25), ("presidential innovation fellow", 20),
   ("google apm", 20), ("google associate product manager", 20),
   ("facebook rotpm", 18), ("facebook rotational product manager", 18),
   ("microsoft pm", 15), ("amazon pm", 15), ("apple pm", 15),
   ("uber pm", 12), ("airbnb pm", 12),
   ("nature", 20), ("science", 20), ("cell", 18), ("neuron", 15),
   ("pnas", 12), ("jama", 15), ("lancet", 15), ("ieee", 10), ("acm", 10),
   ("arxiv", 8),
   ("patent", 10), ("patents", 10), ("patented", 10), ("inventor", 12),
   ("co-inventor", 8)]

/-- The `\s` whitespace class of a Python regex (ASCII part). -/
def isPySpace (c : Char) : Bool :=
  c == ' ' || c == '\t' || c == '\n' || c == '\r' || c == '\x0b' || c == '\x0c'

/-- Numeric value of a run of decimal digits (Python `int`). -/
def digitsVal (run : List Char) : ℕ :=
  run.foldl (fun n c => 10 * n + (c.toNat - 48)) 0

/-- Matching the tail `(?:years?|yrs?)` of the year regex at the head of a
character list; returns the remaining characters on success. -/
def matchYearWord (cs : List Char) : Option (List Char) :=
  if needlePre "years".data cs then some (cs.drop 5)
  else if needlePre "year".data cs then some (cs.drop 4)
  else if needlePre "yrs".data cs then some (cs.drop 3)
  else if needlePre "yr".data cs then some (cs.drop 2)
  else none

theorem matchYearWord_length {cs rest : List Char} (h : matchYearWord cs = some rest) :
    rest.length ≤ cs.length := by
  unfold matchYearWord at h
  split at h
  · cases h; simp [List.length_drop]
  · split at h
    · cases h; simp [List.length_drop]
    · split at h
      · cases h; simp [List.length_drop]
      · split at h
        · cases h; simp [List.length_drop]
        · cases h

/-- The year regex of the quality scorer (digits, then optional
whitespace, then one of years, year, yrs, yr) as a left-to-right
scanner: a maximal digit run, optional whitespace and a year word yield
one extracted integer; scanning resumes after the consumed match.  (No
shorter digit run can rescue a failed match, since the characters after
a shorter run are digits, which neither `\s` nor `y` accepts, so
restarting after the full run is faithful to the regex engine.) -/
def scanYears : List Char → List ℕ
  | [] => []
  | c :: rest =>
    if c.isDigit then
      let run := List.takeWhile Char.isDigit (c :: rest)
      let after := List.dropWhile Char.isDigit (c :: rest)
      let afterWs := List.dropWhile isPySpace after
      match h : matchYearWord afterWs with
      | some rest2 => digitsVal run :: scanYears rest2
      | none => scanYears after
    else scanYears rest
termination_by cs => cs.length
decreasing_by
  all_goals simp only [List.length_cons]
  · have h1 : rest2.length ≤
        (List.dropWhile isPySpace (List.dropWhile Char.isDigit (c :: rest))).length :=
      matchYearWord_length h
    have h2 : (List.dropWhile isPySpace (List.dropWhile Char.isDigit (c :: rest))).length
        ≤ (List.dropWhile Char.isDigit (c :: rest)).length :=
      (List.dropWhile_sublist _).length_le
    have h3 : (List.dropWhile Char.isDigit (c :: rest)).length ≤ rest.length := by
      rw [List.dropWhile_cons_of_pos (by simpa)]
      exact (List.dropWhile_sublist _).length_le
    omega
  · have h3 : (List.dropWhile Char.isDigit (c :: rest)).length ≤ rest.length := by
      rw [List.dropWhile_cons_of_pos (by simpa)]
      exact (List.dropWhile_sublist _).length_le
    omega
  · omega

/-- Number of keywords from `keywords` occurring as substrings of `lo`. -/
def keywordMatches (keywords : List String) (lo : String) : ℚ :=
  ((keywords.filter (fun k => subStr k lo)).length : ℚ)

/-- The tier table applied to the maximal extracted year count in
`QualityScorer._evaluate_experience`. -/
def year_tier (years : ℕ) : ℚ :=
  if years ≥ 10 then 15
  else if years ≥ 5 then 12
  else if years ≥ 3 then 8
  else if years ≥ 1 then 4
  else 0

/-- The years-of-experience bonus of `QualityScorer._evaluate_experience`:
guarded by the test that the text contains years or yr as a substring,
then the regex extraction and the tier table on the maximum. -/
def years_bonus (lo : String) : ℚ :=
  if subStr "years" lo || subStr "yr" lo then
    match scanYears lo.data with
    | [] => 0
    | y :: ys => year_tier ((y :: ys).foldl Nat.max 0)
  else 0

/-- The `relevant_keywords` list of `QualityScorer._evaluate_experience`. -/
def relevant_experience_keywords : List String :=
  ["founder", "ceo", "cto", "co-founder", "startup", "entrepreneur",
   "director", "manager", "lead", "senior", "principal", "architect",
   "vp", "vice president", "head of", "chief", "executive"]

/-- Model of `QualityScorer._evaluate_experience` (cap 35): 12 per prestigious
company, 3 per relevant keyword, plus the years bonus. -/
def evaluate_experience (experience : Option String) : ℚ :=
  if !truthyStr experience then 0
  else
    let experience_lower := lowerOpt experience
    min 35 (12 * keywordMatches prestigious_companies experience_lower
      + 3 * keywordMatches relevant_experience_keywords experience_lower
      + years_bonus experience_lower)

/-- Model of `QualityScorer._evaluate_education` (cap 20). -/
def evaluate_education (education : Option String) : ℚ :=
  if !truthyStr education then 0
  else
    let education_lower := lowerOpt education
    let advanced_degrees := ["phd", "doctorate", "mba", "master", "m.s.", "m.a.", "md"]
    let relevant_fields := ["computer science", "engineering", "business", "economics",
      "mathematics", "physics", "chemistry", "biology", "medicine",
      "data science", "statistics", "finance", "marketing"]
    min 20 (12 * keywordMatches prestigious_universities education_lower
      + 8 * keywordMatches advanced_degrees education_lower
      + 3 * keywordMatches relevant_fields education_lower)

/-- Model of `QualityScorer._evaluate_honors` (cap 30): honor points found in the
experience text plus those found in the education text plus 10 when the
founder name contains `dr.`. -/
def evaluate_honors (f : FounderProfile) : ℚ :=
  let honorPoints := fun (o : Option String) =>
    if truthyStr o then
      ((prestigious_honors.filter (fun p => subStr p.1 (lowerOpt o))).map Prod.snd).sum
    else 0
  min 30 (honorPoints f.experience + honorPoints f.education
    + (if !f.name.isEmpty && subStr "dr." (lowerStr f.name) then 10 else 0))

/-- Model of `QualityScorer._evaluate_network` (cap 15). -/
def evaluate_network (f : FounderProfile) : ℚ :=
  let connPts : ℚ :=
    if truthyInt f.linkedin_connections then
      let c := f.linkedin_connections.getD 0
      if c > 1000 then 10 else if c > 500 then 8 else if c > 200 then 6
      else if c > 100 then 4 else 0
    else 0
  let endoPts : ℚ :=
    if truthyInt f.endorsements then
      let e := f.endorsements.getD 0
      if e > 50 then 5 else if e > 20 then 4 else if e > 10 then 3 else 0
    else 0
  min 15 (connPts + endoPts)

/-- Model of `QualityScorer._calculate_founder_quality` (cap 100). -/
def calculate_founder_quality (f : FounderProfile) : ℚ :=
  min 100 (evaluate_experience f.experience + evaluate_education f.education
    + evaluate_honors f + evaluate_network f)

/-- Model of `QualityScorer._calculate_company_quality` (cap 100), with the fixed
`current_year = 2024` constant of the source. -/
def calculate_company_quality (c : CompanyProfile) : ℚ :=
  let descPts : ℚ :=
    if truthyStr c.description then
      let n := (c.description.getD "").length
      if n > 200 then 20 else if n > 100 then 15 else if n > 50 then 10 else 0
    else 0
  let industryPts : ℚ :=
    if truthyStr c.industry then
      let relevant_industries := ["fintech", "healthtech", "ai", "ml", "saas", "e-commerce",
        "marketplace", "mobile", "software", "technology"]
      if relevant_industries.any (fun r => subStr r (lowerOpt c.industry)) then 15 else 0
    else 0
  let locationPts : ℚ :=
    if truthyStr c.location then
      let top_locations := ["san francisco", "new york", "austin", "boston",
        "seattle", "los angeles", "chicago", "miami"]
      if top_locations.any (fun l => subStr l (lowerOpt c.location)) then 10 else 0
    else 0
  let agePts : ℚ :=
    if truthyInt c.founded_year then
      let age : ℤ := 2024 - c.founded_year.getD 0
      if age ≤ 3 then 15 else if age ≤ 5 then 10 else if age ≤ 10 then 5 else 0
    else 0
  min 100 (descPts + industryPts + locationPts + agePts)

/-- The role inferred from one founder title inside
`QualityScorer._calculate_team_completeness`. -/
def founder_role (f : FounderProfile) : Option String :=
  if truthyStr f.title then
    let t := lowerOpt f.title
    if subStr "ceo" t || subStr "founder" t then some "ceo"
    else if subStr "cto" t || subStr "tech" t then some "cto"
    else if subStr "cpo" t || subStr "product" t then some "cpo"
    else if subStr "cmo" t || subStr "marketing" t then some "cmo"
    else if subStr "cfo" t || subStr "finance" t then some "cfo"
    else none
  else none

/-- Model of `QualityScorer._calculate_team_completeness` (cap 100). -/
def calculate_team_completeness (founders : List FounderProfile) : ℚ :=
  let founder_count := founders.length
  let countPts : ℚ :=
    if founder_count ≥ 3 then 30 else if founder_count = 2 then 25
    else if founder_count = 1 then 15 else 0
  let roles := (founders.filterMap founder_role).dedup
  let diversityPts : ℚ :=
    if roles.length ≥ 3 then 40 else if roles.length = 2 then 30
    else if roles.length = 1 then 20 else 0
  let key_count := (["ceo", "cto", "cpo"].filter (fun r => roles.contains r)).length
  let keyPts : ℚ :=
    if key_count = 3 then 30 else if key_count ≥ 2 then 20
    else if key_count ≥ 1 then 10 else 0
  min 100 (countPts + diversityPts + keyPts)

/-- Rounding to two decimal places, `round(x, 2)` in the source.  (Python
uses round-half-to-even on binary floats; the tie rule is irrelevant here
because every claim uses this same `round2` on both sides.) -/
def round2 (q : ℚ) : ℚ :=
  ((round (q * 100) : ℤ) : ℚ) / 100

/-- Model of `QualityScorer.calculate_quality_score`: 0 with no founders, else the
0.6 / 0.25 / 0.15 weighted combination rounded to two decimals. -/
def calculate_quality_score (startup : StartupProfile) : ℚ :=
  if startup.founders.isEmpty then 0
  else
    let founder_scores := startup.founders.map calculate_founder_quality
    let company_score := calculate_company_quality startup.company
    let team_score := calculate_team_completeness startup.founders
    round2 ((founder_scores.sum / (founder_scores.length : ℚ)) * (6/10)
      + company_score * (25/100) + team_score * (15/100))

/-! ### Portfolio conflict detection, portfolio fit and ranking
(src/unified_vc_sourcing_agent.py)

`UnifiedVCSourcingAgent._calculate_similarity` is
`difflib.SequenceMatcher(None, a, b).ratio()`; it is passed in as a
parameter `sim`, since only the comparisons `> 0.7` / `> 0.6` enter the
conflict logic.  The portfolio list stands for the resolved
`_get_portfolio_companies(vc_firm)` result. -/

/-- The (company, type) entries one portfolio company contributes inside
the loop of `_detect_portfolio_conflicts`: one entry per triggered rule,
in source order (name similarity, industry match, description
similarity). -/
def conflict_entries (sim : String → String → ℚ) (startup : StartupProfile)
    (pc : PortfolioCompany) : List (String × String) :=
  (if sim (lowerStr startup.company.name) (lowerStr pc.name) > 7/10 then
    [(pc.name, "name_similarity")] else [])
  ++ (if truthyStr startup.company.industry && truthyStr pc.industry &&
        (lowerOpt startup.company.industry == lowerOpt pc.industry) then
      [(pc.name, "industry_conflict")] else [])
  ++ (if truthyStr startup.company.description && truthyStr pc.description &&
        (sim (lowerOpt startup.company.description) (lowerOpt pc.description) > 6/10) then
      [(pc.name, "business_model_conflict")] else [])

/-- One iteration of the `for portfolio_company in portfolio_companies`
loop of `_detect_portfolio_conflicts`, threading the accumulated dict. -/
def conflict_step (sim : String → String → ℚ) (startup : StartupProfile)
    (acc : ConflictInfo) (pc : PortfolioCompany) : ConflictInfo :=
  let entries := conflict_entries sim startup pc
  if entries.isEmpty then acc
  else
    { acc with
      has_conflicts := true
      conflict_companies := acc.conflict_companies ++ entries.map Prod.fst
      conflict_types := acc.conflict_types ++ entries.map Prod.snd }

/-- Model of `UnifiedVCSourcingAgent._detect_portfolio_conflicts` on a resolved
portfolio list: the accumulation loop followed by the severity rule. -/
def detect_portfolio_conflicts (sim : String → String → ℚ) (startup : StartupProfile)
    (portfolio_companies : List PortfolioCompany) : ConflictInfo :=
  let c := portfolio_companies.foldl (conflict_step sim startup)
    ⟨false, [], [], "none"⟩
  if c.conflict_companies.length > 2 then { c with severity := "high" }
  else if c.conflict_companies.length > 0 then { c with severity := "medium" }
  else c

/-- Number of portfolio companies sharing the exact industry value of the candidate
value (the `industry_counts` lookup of `_calculate_portfolio_fit`;
missing industries compare as Python `None`). -/
def industry_count (startup : StartupProfile) (portfolio_companies : List PortfolioCompany) : ℕ :=
  (portfolio_companies.filter (fun pc => pc.industry = startup.company.industry)).length

/-- Model of `UnifiedVCSourcingAgent._calculate_portfolio_fit` on a resolved
portfolio list. -/
def calculate_portfolio_fit (startup : StartupProfile)
    (portfolio_companies : List PortfolioCompany) : PortfolioFitInfo :=
  if portfolio_companies.isEmpty then
    ⟨50, ["No portfolio data available"]⟩
  else
    let count := industry_count startup portfolio_companies
    if count = 0 then ⟨75, ["New industry for portfolio"]⟩
    else if count > 5 then
      ⟨30, ["Industry over-represented (" ++ toString count ++ " companies)"]⟩
    else if count > 2 then
      ⟨50, ["Industry well-represented (" ++ toString count ++ " companies)"]⟩
    else
      ⟨65, ["Industry under-represented (" ++ toString count ++ " companies)"]⟩

/-- Model of `UnifiedVCSourcingAgent._get_startup_recommendation`. -/
def get_startup_recommendation (score : ℚ) : String :=
  if score ≥ 80 then "Strong Match - Highly recommend"
  else if score ≥ 65 then "Good Match - Worth considering"
  else if score ≥ 50 then "Moderate Match - Review further"
  else "Weak Match - Low priority"

/-- The combined score computed per result inside
`UnifiedVCSourcingAgent._create_startup_analysis`:
`overall_score * 0.4 + (quality_score or 0) * 0.3 +
(portfolio_fit_score if portfolio_fit else 0) * 0.3`. -/
def combined_score (overall_score : ℚ) (startup : StartupProfile) : ℚ :=
  overall_score * (4/10) + (startup.quality_score.getD 0) * (3/10)
    + ((startup.portfolio_fit.map PortfolioFitInfo.portfolio_fit_score).getD 0) * (3/10)

/-- The recommendation attached per result inside
`_create_startup_analysis`: the score-based recommendation, overridden
when the stored conflict dict has conflicts with high/medium severity. -/
def analysis_recommendation (overall_score : ℚ) (startup : StartupProfile) : String :=
  let base := get_startup_recommendation (combined_score overall_score startup)
  match startup.portfolio_conflicts with
  | none => base
  | some c =>
    if c.has_conflicts then
      if c.severity == "high" then "High Conflict - Avoid"
      else if c.severity == "medium" then "Moderate Conflict - Review carefully"
      else base
    else base

/-! ### Batch fit calculation (src/models/optimized_fit_metric.py)

`OptimizedFitMetricCalculator.calculate_fit_metrics_batch` wraps the
per-startup scoring in `try/except`, skipping a failing item and
continuing.  The per-item scoring (which may raise on malformed data) is
the parameter `score`, returning `Except`. -/

/-- The `for startup in startups` loop of `calculate_fit_metrics_batch`:
append on success, `continue` on exception. -/
def calculate_fit_metrics_batch (score : StartupProfile → Except String FitMetrics) :
    List StartupProfile → List FitMetrics
  | [] => []
  | startup :: rest =>
    match score startup with
    | Except.ok m => m :: calculate_fit_metrics_batch score rest
    | Except.error _ => calculate_fit_metrics_batch score rest

/-! ### Text similarity (src/models/fit_metric.py lines 87-114 and
src/models/optimized_fit_metric.py lines 133-145)

Both variants compute `cosine_similarity([u], [v])[0][0] * 100` on the
two embedding vectors; the embedding model itself is external.  Vectors
are modelled as `Fin n → ℝ` and cosine similarity exactly
(`dot u v / (‖u‖ ‖v‖)`, with the `0/0 = 0` convention matching
the sklearn handling of zero vectors). -/

/-- Dot product of two embedding vectors. -/
def dotProd {n : ℕ} (u v : Fin n → ℝ) : ℝ :=
  ∑ i, u i * v i

/-- Euclidean norm of an embedding vector. -/
noncomputable def l2norm {n : ℕ} (u : Fin n → ℝ) : ℝ :=
  Real.sqrt (∑ i, u i ^ 2)

/-- Cosine similarity of two embedding vectors. -/
noncomputable def cosine_similarity {n : ℕ} (u v : Fin n → ℝ) : ℝ :=
  dotProd u v / (l2norm u * l2norm v)

/-- Model of `_calculate_text_similarity` /
`_calculate_text_similarity_optimized` applied to the two embeddings:
`float(similarity * 100)`, with no clamping. -/
noncomputable def text_similarity_score {n : ℕ} (u v : Fin n → ℝ) : ℝ :=
  cosine_similarity u v * 100

/-! ### Sample inputs used by concrete witnesses -/

/-- A concrete one-founder startup used to witness the quality-score
formula. -/
def c4SampleStartup : StartupProfile :=
  { company := { name := "B", industry := some "fintech" },
    founders := [{ name := "F",
                   title := some "CEO",
                   experience := some "10 years at google as founder",
                   education := some "stanford mba",
                   linkedin_connections := some 1200,
                   endorsements := some 60 }] }

/-! ## Helper lemmas -/

/-- Characterisation of the accumulation loop of
`_detect_portfolio_conflicts`: starting from `acc`, the loop appends one
(company, type) pair per triggered rule per portfolio company, and sets
`has_conflicts` as soon as any pair is appended. -/
theorem conflict_foldl_eq (sim : String → String → ℚ) (s : StartupProfile)
    (port : List PortfolioCompany) : ∀ acc : ConflictInfo,
    port.foldl (conflict_step sim s) acc =
      { has_conflicts := acc.has_conflicts || !(port.flatMap (conflict_entries sim s)).isEmpty
        conflict_companies := acc.conflict_companies
          ++ (port.flatMap (conflict_entries sim s)).map Prod.fst
        conflict_types := acc.conflict_types
          ++ (port.flatMap (conflict_entries sim s)).map Prod.snd
        severity := acc.severity } := by
  induction port with
  | nil => intro acc; simp
  | cons pc rest ih =>
    intro acc
    rw [List.foldl_cons, ih]
    unfold conflict_step
    by_cases h : (conflict_entries sim s pc).isEmpty
    · rw [if_pos h]
      simp [List.flatMap_cons, List.isEmpty_iff.mp h]
    · rw [if_neg h]
      simp only [Bool.not_eq_true] at h
      have hne : conflict_entries sim s pc ≠ [] := by
        intro hc
        rw [hc] at h
        simp at h
      simp [List.flatMap_cons, h, hne, List.map_append, List.append_assoc]

/-- Closed form of `_detect_portfolio_conflicts`: the dict is fully
determined by the list of triggered (company, type) pairs. -/
theorem detect_eq (sim : String → String → ℚ) (s : StartupProfile)
    (port : List PortfolioCompany) :
    detect_portfolio_conflicts sim s port =
      if 2 < (port.flatMap (conflict_entries sim s)).length then
        ⟨true, (port.flatMap (conflict_entries sim s)).map Prod.fst,
         (port.flatMap (conflict_entries sim s)).map Prod.snd, "high"⟩
      else if 0 < (port.flatMap (conflict_entries sim s)).length then
        ⟨true, (port.flatMap (conflict_entries sim s)).map Prod.fst,
         (port.flatMap (conflict_entries sim s)).map Prod.snd, "medium"⟩
      else ⟨false, [], [], "none"⟩ := by
  unfold detect_portfolio_conflicts
  rw [conflict_foldl_eq]
  dsimp only
  simp only [List.nil_append, List.length_map, Bool.false_or]
  set pairs := port.flatMap (conflict_entries sim s) with hp
  by_cases hne : pairs = []
  · simp [hne]
  · have hie : pairs.isEmpty = false := by
      simpa [List.isEmpty_iff] using hne
    simp only [hie, Bool.not_false]
    split_ifs with h1 h2
    · rfl
    · rfl
    · exact absurd (List.length_eq_zero.mp (by omega)) hne

/-- A conflict dict produced with severity `"high"` always has
`has_conflicts = true` (the severity rule fires only after at least one
entry was appended). -/
theorem detect_severity_high_has_conflicts (sim : String → String → ℚ)
    (s : StartupProfile) (port : List PortfolioCompany)
    (h : (detect_portfolio_conflicts sim s port).severity = "high") :
    (detect_portfolio_conflicts sim s port).has_conflicts = true := by
  rw [detect_eq] at h ⊢
  split_ifs at h ⊢ with h1 h2
  · rfl
  · dsimp only at h
    exact absurd h (by decide)
  · dsimp only at h
    exact absurd h (by decide)

/-! ## Claim theorems -/

/-- C5: for every candidate startup and resolved portfolio list, the
conflict detector appends one entry to `conflict_companies` /
`conflict_types` per triggered rule per portfolio company (the same
company may appear several times), and the severity is `"high"` exactly
when more than 2 entries accumulated, `"medium"` exactly when 1-2, and
`"none"` exactly when 0. -/
theorem conflict_accumulation_and_severity (sim : String → String → ℚ)
    (startup : StartupProfile) (port : List PortfolioCompany) :
    (detect_portfolio_conflicts sim startup port).conflict_companies
        = (port.flatMap (conflict_entries sim startup)).map Prod.fst
    ∧ (detect_portfolio_conflicts sim startup port).conflict_types
        = (port.flatMap (conflict_entries sim startup)).map Prod.snd
    ∧ ((detect_portfolio_conflicts sim startup port).severity = "high"
        ↔ 2 < (detect_portfolio_conflicts sim startup port).conflict_companies.length)
    ∧ ((detect_portfolio_conflicts sim startup port).severity = "medium"
        ↔ (1 ≤ (detect_portfolio_conflicts sim startup port).conflict_companies.length
            ∧ (detect_portfolio_conflicts sim startup port).conflict_companies.length ≤ 2))
    ∧ ((detect_portfolio_conflicts sim startup port).severity = "none"
        ↔ (detect_portfolio_conflicts sim startup port).conflict_companies.length = 0) := by
  rw [detect_eq]
  set pairs := port.flatMap (conflict_entries sim startup) with hp
  split_ifs with h1 h2 <;> dsimp only
  · refine ⟨rfl, rfl, ?_, ?_, ?_⟩
    · exact iff_of_true rfl (by simp only [List.length_map]; omega)
    · exact iff_of_false (by decide) (by simp only [List.length_map]; omega)
    · exact iff_of_false (by decide) (by simp only [List.length_map]; omega)
  · refine ⟨rfl, rfl, ?_, ?_, ?_⟩
    · exact iff_of_false (by decide) (by simp only [List.length_map]; omega)
    · exact iff_of_true rfl (by simp only [List.length_map]; omega)
    · exact iff_of_false (by decide) (by simp only [List.length_map]; omega)
  · have hnil : pairs = [] := List.length_eq_zero.mp (by omega)
    simp [hnil]

/-- C9: the batch fit calculation skips an item whose scoring raises and
still processes the rest: the result is exactly the list of successful
per-item results, in input order (`filterMap` of the per-item scorer). -/
theorem batch_skips_failing_items (score : StartupProfile → Except String FitMetrics)
    (startups : List StartupProfile) :
    calculate_fit_metrics_batch score startups
      = startups.filterMap (fun s => (score s).toOption) := by
  induction startups with
  | nil => rfl
  | cons s rest ih =>
    unfold calculate_fit_metrics_batch
    cases hs : score s <;> simp [hs, Except.toOption, ih]

/-- C6: the portfolio-fit estimator returns 75 for an industry absent
from the portfolio, 30 when its count exceeds 5, 50 when it exceeds 2
(but is at most 5), 65 otherwise, always with a one-element reasoning
list; an empty portfolio yields 50 with "No portfolio data available". -/
theorem portfolio_fit_score_cases (startup : StartupProfile) (port : List PortfolioCompany) :
    (port = [] → calculate_portfolio_fit startup port = ⟨50, ["No portfolio data available"]⟩)
    ∧ (port ≠ [] → industry_count startup port = 0 →
        calculate_portfolio_fit startup port = ⟨75, ["New industry for portfolio"]⟩)
    ∧ (5 < industry_count startup port →
        (calculate_portfolio_fit startup port).portfolio_fit_score = 30)
    ∧ (2 < industry_count startup port → industry_count startup port ≤ 5 →
        (calculate_portfolio_fit startup port).portfolio_fit_score = 50)
    ∧ (port ≠ [] → 1 ≤ industry_count startup port → industry_count startup port ≤ 2 →
        (calculate_portfolio_fit startup port).portfolio_fit_score = 65)
    ∧ (calculate_portfolio_fit startup port).reasoning.length = 1 := by
  rcases port with _ | ⟨pc, rest⟩
  · refine ⟨fun _ => rfl, fun h _ => absurd rfl h, ?_, ?_, fun h => absurd rfl h, rfl⟩
    · intro h5
      simp [industry_count] at h5
    · intro h2 _
      simp [industry_count] at h2
  · have hcons : (pc :: rest).isEmpty = false := rfl
    refine ⟨fun h => absurd h (List.cons_ne_nil pc rest), fun _ h0 => ?_, fun h5 => ?_,
      fun h2 h5 => ?_, fun _ h1 h2 => ?_, ?_⟩
    · simp [calculate_portfolio_fit, hcons, h0]
    · have h0 : ¬(industry_count startup (pc :: rest) = 0) := by omega
      simp [calculate_portfolio_fit, hcons, h0, h5]
    · have h0 : ¬(industry_count startup (pc :: rest) = 0) := by omega
      have h5n : ¬(5 < industry_count startup (pc :: rest)) := by omega
      simp [calculate_portfolio_fit, hcons, h0, h5n, h2]
    · have h0 : ¬(industry_count startup (pc :: rest) = 0) := by omega
      have h5n : ¬(5 < industry_count startup (pc :: rest)) := by omega
      have h2n : ¬(2 < industry_count startup (pc :: rest)) := by omega
      simp [calculate_portfolio_fit, hcons, h0, h5n, h2n]
    · simp only [calculate_portfolio_fit, hcons]
      split_ifs <;> rfl

/-- Witness for C6: an empty portfolio yields the default, and an
industry counted once yields 65 (under-represented). -/
theorem portfolio_fit_score_cases_witness :
    calculate_portfolio_fit { company := { name := "S", industry := some "ai" } } []
      = ⟨50, ["No portfolio data available"]⟩
    ∧ (calculate_portfolio_fit { company := { name := "S", industry := some "ai" } }
        [{ name := "P", industry := some "ai" }]).portfolio_fit_score = 65 :=
  ⟨(portfolio_fit_score_cases _ _).1 rfl,
   (portfolio_fit_score_cases _ _).2.2.2.2.1 (by simp) (by decide) (by decide)⟩

/-- C10: a candidate with a missing industry, checked against a nonempty
portfolio in which every company has an industry, is treated as a novel
industry: score 75 with reasoning "New industry for portfolio". -/
theorem portfolio_fit_missing_industry_novel (startup : StartupProfile)
    (port : List PortfolioCompany)
    (hind : startup.company.industry = none) (hne : port ≠ [])
    (hall : ∀ pc ∈ port, pc.industry ≠ none) :
    calculate_portfolio_fit startup port = ⟨75, ["New industry for portfolio"]⟩ := by
  have hcount : industry_count startup port = 0 := by
    unfold industry_count
    rw [List.length_eq_zero, List.filter_eq_nil]
    intro pc hpc
    simp only [hind, decide_eq_true_eq]
    exact fun hc => hall pc hpc hc
  have hie : port.isEmpty = false := by simpa [List.isEmpty_iff] using hne
  simp [calculate_portfolio_fit, hie, hcount]

/-- Witness for C10. -/
theorem portfolio_fit_missing_industry_novel_witness :
    calculate_portfolio_fit { company := { name := "S" } }
        [{ name := "P", industry := some "fintech" }]
      = ⟨75, ["New industry for portfolio"]⟩ :=
  portfolio_fit_missing_industry_novel _ _ rfl (by simp) (by simp)

/-- C2: the combined ranking score of a startup without portfolio
conflicts is 0.4·fit + 0.3·quality + 0.3·portfolio-fit, and any startup
whose stored conflict dict was produced by the detector with severity
`"high"` is recommended "High Conflict - Avoid" regardless of the
combined score. -/
theorem combined_score_formula_and_high_conflict_override
    (overall q pfs : ℚ) (reasons : List String) (s t u : StartupProfile)
    (sim : String → String → ℚ) (port : List PortfolioCompany)
    (hq : s.quality_score = some q)
    (hp : s.portfolio_fit = some ⟨pfs, reasons⟩)
    (hnc : ∀ c, s.portfolio_conflicts = some c → c.has_conflicts = false)
    (ht : t.portfolio_conflicts = some (detect_portfolio_conflicts sim u port))
    (hsev : (detect_portfolio_conflicts sim u port).severity = "high") :
    combined_score overall s = (4/10) * overall + (3/10) * q + (3/10) * pfs
    ∧ (∀ overall2 : ℚ, analysis_recommendation overall2 t = "High Conflict - Avoid") := by
  constructor
  · unfold combined_score
    rw [hq, hp]
    have hr : (Option.map PortfolioFitInfo.portfolio_fit_score
        (some (⟨pfs, reasons⟩ : PortfolioFitInfo))).getD 0 = pfs := rfl
    have hq0 : (some q).getD 0 = q := rfl
    rw [hr, hq0]
    ring
  · intro overall2
    unfold analysis_recommendation
    rw [ht]
    have hc := detect_severity_high_has_conflicts sim u port hsev
    simp [hc, hsev]

/-- Witness for C2 at concrete inputs (three same-industry portfolio
companies give three `industry_conflict` entries, hence severity high). -/
theorem combined_score_formula_and_high_conflict_override_witness :
    combined_score 70
        { company := { name := "S" }, quality_score := some 50,
          portfolio_fit := some ⟨60, ["r"]⟩ }
      = (4/10) * 70 + (3/10) * 50 + (3/10) * 60
    ∧ (∀ overall2 : ℚ, analysis_recommendation overall2
        { company := { name := "T" },
          portfolio_conflicts := some (detect_portfolio_conflicts (fun _ _ => 0)
            { company := { name := "U", industry := some "fintech" } }
            [{ name := "P1", industry := some "fintech" },
             { name := "P2", industry := some "fintech" },
             { name := "P3", industry := some "fintech" }]) }
      = "High Conflict - Avoid") :=
  combined_score_formula_and_high_conflict_override 70 50 60 ["r"] _ _
    { company := { name := "U", industry := some "fintech" } } (fun _ _ => 0)
    [{ name := "P1", industry := some "fintech" },
     { name := "P2", industry := some "fintech" },
     { name := "P3", industry := some "fintech" }]
    rfl rfl (fun c hc => by simp at hc) rfl
    (by norm_num [detect_portfolio_conflicts, conflict_step, conflict_entries,
          truthyStr, lowerOpt, lowerStr]
        decide)

/-- C4: with at least one founder, the quality score is the rounded
0.6 / 0.25 / 0.15 weighted combination of the mean founder score, the
company score and the team-completeness score; with no founders it is
exactly 0. -/
theorem quality_score_weighted_formula (startup : StartupProfile) :
    (startup.founders = [] → calculate_quality_score startup = 0)
    ∧ (startup.founders ≠ [] →
        calculate_quality_score startup
          = round2 ((6/10) * ((startup.founders.map calculate_founder_quality).sum
                / (startup.founders.length : ℚ))
              + (25/100) * calculate_company_quality startup.company
              + (15/100) * calculate_team_completeness startup.founders)) := by
  constructor
  · intro h
    simp [calculate_quality_score, h]
  · intro h
    have hie : startup.founders.isEmpty = false := by simpa [List.isEmpty_iff] using h
    simp only [calculate_quality_score, hie, Bool.false_eq_true, if_false, List.length_map]
    congr 1
    ring

/-- Witness for C4: a startup with no founders scores 0, and a one-founder
startup satisfies the weighted formula. -/
theorem quality_score_weighted_formula_witness :
    calculate_quality_score { company := { name := "A" } } = 0
    ∧ calculate_quality_score c4SampleStartup
      = round2 ((6/10) * ((c4SampleStartup.founders.map calculate_founder_quality).sum
            / (c4SampleStartup.founders.length : ℚ))
          + (25/100) * calculate_company_quality c4SampleStartup.company
          + (15/100) * calculate_team_completeness c4SampleStartup.founders) :=
  ⟨(quality_score_weighted_formula _).1 rfl,
   (quality_score_weighted_formula c4SampleStartup).2 (by simp [c4SampleStartup])⟩

/-- Unfolding equation for one iteration of the stage loop. -/
theorem stage_loop_cons (n : ℤ) (v : String) (rest : List String) :
    stage_loop n (v :: rest)
      = if (n - stage_hierarchy v).natAbs ≤ 1 then 75
        else if (n - stage_hierarchy v).natAbs ≤ 2 then 50
        else stage_loop n rest := by
  rfl

/-- The stage loop returns 0 when every VC stage is at ordinal distance
greater than 2. -/
theorem stage_loop_all_far (n : ℤ) (l : List String)
    (h : ∀ v ∈ l, 2 < (n - stage_hierarchy v).natAbs) : stage_loop n l = 0 := by
  induction l with
  | nil => rfl
  | cons v rest ih =>
    have hv := h v (by simp)
    rw [stage_loop_cons, if_neg (by omega), if_neg (by omega)]
    exact ih (fun u hu => h u (by simp [hu]))

/-- The stage loop skips a prefix of far stages and decides on the first
stage within distance 2. -/
theorem stage_loop_first_near (n : ℤ) (l1 : List String) (v : String) (l2 : List String)
    (h1 : ∀ u ∈ l1, 2 < (n - stage_hierarchy u).natAbs)
    (hv : (n - stage_hierarchy v).natAbs ≤ 2) :
    stage_loop n (l1 ++ v :: l2)
      = if (n - stage_hierarchy v).natAbs ≤ 1 then 75 else 50 := by
  induction l1 with
  | nil =>
    rw [List.nil_append, stage_loop_cons]
    split_ifs with ha hb
    · rfl
    · rfl
  | cons u rest ih =>
    have hu := h1 u (by simp)
    rw [List.cons_append, stage_loop_cons, if_neg (by omega), if_neg (by omega)]
    exact ih (fun w hw => h1 w (by simp [hw]))

/-- Counterexample to C3: startup stage "seed" against VC stages
["series-b", "series-a"].  "series-a" is at ordinal distance 1, so the
claim requires 75, but the loop returns 50 on the earlier "series-b"
(distance 2). -/
theorem stage_alignment_first_match_counterexample :
    calculate_stage_alignment
        { company := { name := "S", funding_stage := some "seed" } }
        { name := "V", investment_stages := ["series-b", "series-a"] }
      = 50
    ∧ (stage_hierarchy "seed" - stage_hierarchy "series-a").natAbs ≤ 1
    ∧ (50 : ℚ) ≠ 75 := by
  exact ⟨by decide, by decide, by norm_num⟩

/-- C3 (amended): 100 on exact lower-cased match; otherwise the loop
scans the VC stages in list order and returns 75 or 50 for the FIRST
stage within ordinal distance 2 (75 when the distance is at most 1, 50
when it is exactly 2), and 0 when no stage is within distance 2. -/
theorem stage_alignment_amended (startup : StartupProfile) (vc : VCProfile)
    (hstage : truthyStr startup.company.funding_stage = true)
    (hvc : vc.investment_stages ≠ []) :
    ((vc.investment_stages.map lowerStr).contains (lowerOpt startup.company.funding_stage)
        = true → calculate_stage_alignment startup vc = 100)
    ∧ ((vc.investment_stages.map lowerStr).contains (lowerOpt startup.company.funding_stage)
        = false →
      ((∀ v ∈ vc.investment_stages.map lowerStr,
          2 < (stage_hierarchy (lowerOpt startup.company.funding_stage)
                - stage_hierarchy v).natAbs) →
        calculate_stage_alignment startup vc = 0)
      ∧ (∀ l1 v l2, vc.investment_stages.map lowerStr = l1 ++ v :: l2 →
          (∀ u ∈ l1, 2 < (stage_hierarchy (lowerOpt startup.company.funding_stage)
                - stage_hierarchy u).natAbs) →
          (stage_hierarchy (lowerOpt startup.company.funding_stage)
                - stage_hierarchy v).natAbs ≤ 1 →
          calculate_stage_alignment startup vc = 75)
      ∧ (∀ l1 v l2, vc.investment_stages.map lowerStr = l1 ++ v :: l2 →
          (∀ u ∈ l1, 2 < (stage_hierarchy (lowerOpt startup.company.funding_stage)
                - stage_hierarchy u).natAbs) →
          (stage_hierarchy (lowerOpt startup.company.funding_stage)
                - stage_hierarchy v).natAbs = 2 →
          calculate_stage_alignment startup vc = 50)) := by
  have hie : vc.investment_stages.isEmpty = false := by
    simpa [List.isEmpty_iff] using hvc
  have hbase : ∀ r : ℚ,
      (if !truthyStr startup.company.funding_stage
          || vc.investment_stages.isEmpty then (0:ℚ) else r) = r := by
    intro r
    rw [if_neg]
    simp [hstage, hie]
  constructor
  · intro hc
    unfold calculate_stage_alignment
    rw [hbase, if_pos hc]
  · intro hc
    refine ⟨?_, ?_, ?_⟩
    · intro hfar
      unfold calculate_stage_alignment
      rw [hbase, if_neg (by rw [hc]; simp)]
      exact stage_loop_all_far _ _ hfar
    · intro l1 v l2 hsplit h1 hv
      unfold calculate_stage_alignment
      rw [hbase, if_neg (by rw [hc]; simp), hsplit,
        stage_loop_first_near _ _ _ _ h1 (by omega), if_pos hv]
    · intro l1 v l2 hsplit h1 hv
      unfold calculate_stage_alignment
      rw [hbase, if_neg (by rw [hc]; simp), hsplit,
        stage_loop_first_near _ _ _ _ h1 (by omega), if_neg (by omega)]

/-- Witness for the amended C3: "seed" against ["growth", "series-a"]
skips the far stage "growth" (distance 4) and returns 75 on "series-a"
(distance 1). -/
theorem stage_alignment_amended_witness :
    calculate_stage_alignment
        { company := { name := "S", funding_stage := some "seed" } }
        { name := "V", investment_stages := ["growth", "series-a"] }
      = 75 :=
  (((stage_alignment_amended
      { company := { name := "S", funding_stage := some "seed" } }
      { name := "V", investment_stages := ["growth", "series-a"] }
      (by decide) (by simp)).2 (by decide)).2.1
    ["growth"] "series-a" [] (by decide) (by decide) (by decide))

/-- Counterexample to C7: the text "10 year" matches the year regex with
n = 10 (so the claim demands a bonus of at least 4, in fact +15), but the
enclosing guard (text must contain years or yr as a substring) is false
for the singular year, so the code awards no bonus and the whole experience
score is 0. -/
theorem years_bonus_guard_counterexample :
    evaluate_experience (some "10 year") = 0
    ∧ lowerOpt (some "10 year") = "10 year"
    ∧ scanYears "10 year".data = [10]
    ∧ years_bonus "10 year" = 0 := by
  have hg : (subStr "years" "10 year" || subStr "yr" "10 year") = false := by decide
  have hl : lowerOpt (some "10 year") = "10 year" := by decide
  refine ⟨?_, hl, ?_, ?_⟩
  · have hk1 : keywordMatches prestigious_companies (lowerOpt (some "10 year")) = 0 := by
      have h0 : (prestigious_companies.filter
          (fun k => subStr k (lowerOpt (some "10 year")))).length = 0 := by decide
      simp [keywordMatches, h0]
    have hk2 : keywordMatches relevant_experience_keywords (lowerOpt (some "10 year")) = 0 := by
      have h0 : (relevant_experience_keywords.filter
          (fun k => subStr k (lowerOpt (some "10 year")))).length = 0 := by decide
      simp [keywordMatches, h0]
    have hy : years_bonus (lowerOpt (some "10 year")) = 0 := by
      rw [hl]
      simp [years_bonus, hg]
    have ht : truthyStr (some "10 year") = true := by decide
    norm_num [evaluate_experience, ht, hk1, hk2, hy]
  · simp [scanYears, matchYearWord, digitsVal, isPySpace, needlePre]
  · simp [years_bonus, hg]

/-- C7 (amended): the years-of-experience bonus inside the experience
score is applied only when the lower-cased text contains "years" or "yr"
as a substring; in that case it is the tier table applied to the maximum
regex-extracted integer, and a maximum of at least 1 yields at least 4.
Texts matching the regex but lacking those substrings (singular "year")
receive no bonus. -/
theorem years_bonus_amended (e : String) :
    (e ≠ "" → evaluate_experience (some e)
        = min 35 (12 * keywordMatches prestigious_companies (lowerStr e)
            + 3 * keywordMatches relevant_experience_keywords (lowerStr e)
            + years_bonus (lowerStr e)))
    ∧ ((subStr "years" (lowerStr e) = false ∧ subStr "yr" (lowerStr e) = false) →
        years_bonus (lowerStr e) = 0)
    ∧ (∀ y ys, (subStr "years" (lowerStr e) = true ∨ subStr "yr" (lowerStr e) = true) →
        scanYears (lowerStr e).data = y :: ys →
        (years_bonus (lowerStr e) = year_tier ((y :: ys).foldl Nat.max 0)
          ∧ (1 ≤ (y :: ys).foldl Nat.max 0 → 4 ≤ years_bonus (lowerStr e)))) := by
  refine ⟨?_, ?_, ?_⟩
  · intro he
    have hie : e.isEmpty = false := by
      cases hb : e.isEmpty
      · rfl
      · exact absurd ((String.isEmpty_iff e).mp hb) he
    have ht : truthyStr (some e) = true := by
      simp [truthyStr, hie]
    simp [evaluate_experience, ht, lowerOpt]
  · rintro ⟨h1, h2⟩
    simp [years_bonus, h1, h2]
  · intro y ys hg hscan
    have hgb : (subStr "years" (lowerStr e) || subStr "yr" (lowerStr e)) = true := by
      rcases hg with h | h <;> simp [h]
    have hb : years_bonus (lowerStr e) = year_tier ((y :: ys).foldl Nat.max 0) := by
      simp [years_bonus, hgb, hscan]
    refine ⟨hb, ?_⟩
    intro hmax
    rw [hb]
    unfold year_tier
    split_ifs <;> first | norm_num | omega

/-- Witness for the amended C7: "5 years" passes the guard, the regex
extracts [5], and the bonus is the 5-tier (12 points, at least 4). -/
theorem years_bonus_amended_witness :
    years_bonus (lowerStr "5 years") = year_tier ([5].foldl Nat.max 0)
    ∧ 4 ≤ years_bonus (lowerStr "5 years") := by
  have hscan : scanYears (lowerStr "5 years").data = [5] := by
    have hl : lowerStr "5 years" = "5 years" := by decide
    rw [hl]
    simp [scanYears, matchYearWord, digitsVal, isPySpace, needlePre]
  have h := (years_bonus_amended "5 years").2.2 5 [] (Or.inl (by decide)) hscan
  exact ⟨h.1, h.2 (by decide)⟩

/-- Counterexample to C8: with industry `""` and focus areas `[""]` the
lower-cased industry equals a lower-cased focus area, but the emptiness
guard fires first and the scorer returns 0, not 100 — so the claimed
"100 iff exact match" equivalence fails at this input. -/
theorem industry_alignment_iff_counterexample :
    calculate_industry_alignment (fun _ _ => 0)
        { company := { name := "S", industry := some "" } }
        { name := "V", focus_areas := [""] }
      = 0
    ∧ ((([""] : List String).map lowerStr).contains (lowerOpt (some "")) = true)
    ∧ (0 : ℚ) ≠ 100 := by
  refine ⟨?_, by decide, by norm_num⟩
  have hg : truthyStr (some "") = false := by decide
  simp [calculate_industry_alignment, hg]

/-- C8 (amended): both industry-alignment variants return 0 whenever the
industry is missing/empty or the focus-area list is empty; for a
nonempty industry and nonempty focus-area list, they return 100 exactly
when the lower-cased industry equals some lower-cased focus area. -/
theorem industry_alignment_amended (wordSim : String → String → ℚ)
    (startup : StartupProfile) (vc : VCProfile) :
    ((truthyStr startup.company.industry = false ∨ vc.focus_areas = []) →
        calculate_industry_alignment wordSim startup vc = 0
        ∧ industry_alignment_optimized startup vc = 0)
    ∧ (truthyStr startup.company.industry = true → vc.focus_areas ≠ [] →
        ((calculate_industry_alignment wordSim startup vc = 100
            ↔ (vc.focus_areas.map lowerStr).contains (lowerOpt startup.company.industry)
                = true)
          ∧ (industry_alignment_optimized startup vc = 100
            ↔ (vc.focus_areas.map lowerStr).contains (lowerOpt startup.company.industry)
                = true))) := by
  constructor
  · intro h
    have hguard : (!truthyStr startup.company.industry || vc.focus_areas.isEmpty) = true := by
      rcases h with h | h
      · simp [h]
      · simp [h]
    exact ⟨by simp [calculate_industry_alignment, hguard],
      by simp [industry_alignment_optimized, hguard]⟩
  · intro ht hne
    have hie : vc.focus_areas.isEmpty = false := by simpa [List.isEmpty_iff] using hne
    have hguard : (!truthyStr startup.company.industry || vc.focus_areas.isEmpty) = false := by
      simp [ht, hie]
    by_cases hc : (vc.focus_areas.map lowerStr).contains (lowerOpt startup.company.industry)
        = true
    · refine ⟨iff_of_true ?_ hc, iff_of_true ?_ hc⟩
      · unfold calculate_industry_alignment
        rw [if_neg (by rw [hguard]; simp)]
        dsimp only
        rw [if_pos hc]
      · unfold industry_alignment_optimized
        rw [if_neg (by rw [hguard]; simp)]
        dsimp only
        rw [if_pos hc]
    · have hcf : (vc.focus_areas.map lowerStr).contains (lowerOpt startup.company.industry)
          = false := by simpa using hc
      refine ⟨iff_of_false ?_ hc, iff_of_false ?_ hc⟩
      · simp only [calculate_industry_alignment, hguard, hcf, Bool.false_eq_true, if_false]
        split_ifs <;> norm_num
      · simp only [industry_alignment_optimized, hguard, hcf, Bool.false_eq_true, if_false]
        split_ifs <;> norm_num

/-- Witness for the amended C8: "Fintech" against focus area "fintech"
is an exact case-insensitive match, so both variants return 100. -/
theorem industry_alignment_amended_witness :
    calculate_industry_alignment (fun _ _ => 0)
        { company := { name := "S", industry := some "Fintech" } }
        { name := "V", focus_areas := ["fintech"] } = 100
    ∧ industry_alignment_optimized
        { company := { name := "S", industry := some "Fintech" } }
        { name := "V", focus_areas := ["fintech"] } = 100 := by
  have h := (industry_alignment_amended (fun _ _ => 0)
      { company := { name := "S", industry := some "Fintech" } }
      { name := "V", focus_areas := ["fintech"] }).2 (by decide) (by simp)
  exact ⟨h.1.mpr (by decide), h.2.mpr (by decide)⟩

/-- The stage loop only produces 0, 50 or 75, hence stays in [0,100]. -/
theorem stage_loop_bounds (n : ℤ) (l : List String) :
    0 ≤ stage_loop n l ∧ stage_loop n l ≤ 100 := by
  induction l with
  | nil =>
    have h : stage_loop n [] = 0 := rfl
    rw [h]
    norm_num
  | cons v rest ih =>
    rw [stage_loop_cons]
    split_ifs <;> first | exact ih | norm_num

/-- Each founder contributes a nonnegative amount to network proximity. -/
theorem founder_network_points_nonneg (f : FounderProfile) :
    0 ≤ founder_network_points f := by
  unfold founder_network_points
  refine add_nonneg (add_nonneg ?_ ?_) ?_
  · dsimp only
    split_ifs <;> norm_num
  · dsimp only
    split_ifs <;> norm_num
  · split_ifs with h
    · unfold evaluate_experience_quality
      dsimp only
      refine le_min (by norm_num) (by positivity)
    · exact le_refl 0

/-- Cauchy-Schwarz for the embedded dot product and norms. -/
theorem abs_dotProd_le_norms {n : ℕ} (u v : Fin n → ℝ) :
    |dotProd u v| ≤ l2norm u * l2norm v := by
  rw [abs_le]
  constructor
  · have h := Real.sum_mul_le_sqrt_mul_sqrt Finset.univ (fun i => -u i) v
    simp only [neg_mul, Finset.sum_neg_distrib, neg_sq] at h
    unfold dotProd l2norm
    linarith
  · exact Real.sum_mul_le_sqrt_mul_sqrt Finset.univ u v

/-- Cosine similarity lies in [-1, 1] (with the 0-denominator convention). -/
theorem abs_cosine_similarity_le_one {n : ℕ} (u v : Fin n → ℝ) :
    |cosine_similarity u v| ≤ 1 := by
  unfold cosine_similarity
  rcases eq_or_ne (l2norm u * l2norm v) 0 with hD | hD
  · rw [hD, div_zero]
    norm_num
  · have hDpos : 0 < l2norm u * l2norm v :=
      lt_of_le_of_ne (mul_nonneg (Real.sqrt_nonneg _) (Real.sqrt_nonneg _)) (Ne.symm hD)
    rw [abs_div, abs_of_pos hDpos, div_le_one hDpos]
    exact abs_dotProd_le_norms u v

/-- Counterexample to C1: the text-similarity scorer applied to the
opposed embeddings (1,0) and (-1,0) returns cosine −1 scaled by 100,
i.e. −100, which is below 0. -/
theorem text_similarity_negative_counterexample :
    text_similarity_score ![(1:ℝ), 0] ![(-1:ℝ), 0] = -100
    ∧ text_similarity_score ![(1:ℝ), 0] ![(-1:ℝ), 0] < 0 := by
  have h : text_similarity_score ![(1:ℝ), 0] ![(-1:ℝ), 0] = -100 := by
    unfold text_similarity_score cosine_similarity dotProd l2norm
    norm_num [Fin.sum_univ_two, Matrix.cons_val_zero, Matrix.cons_val_one, Matrix.head_cons,
      Real.sqrt_one]
  exact ⟨h, by rw [h]; norm_num⟩

/-- C1 (amended): the rule-based sub-scorers (industry in both variants,
stage, geography, network proximity) stay in [0,100]; the text-similarity
scorer returns cosine × 100, which lies in [-100,100] and can be negative
for opposed embeddings. -/
theorem sub_scores_bounded_amended {n : ℕ} (u v : Fin n → ℝ)
    (wordSim : String → String → ℚ) (startup : StartupProfile) (vc : VCProfile) :
    (0 ≤ calculate_industry_alignment wordSim startup vc
      ∧ calculate_industry_alignment wordSim startup vc ≤ 100)
    ∧ (0 ≤ industry_alignment_optimized startup vc
      ∧ industry_alignment_optimized startup vc ≤ 100)
    ∧ (0 ≤ calculate_stage_alignment startup vc
      ∧ calculate_stage_alignment startup vc ≤ 100)
    ∧ (0 ≤ calculate_geographic_alignment startup vc
      ∧ calculate_geographic_alignment startup vc ≤ 100)
    ∧ (0 ≤ calculate_network_proximity startup vc
      ∧ calculate_network_proximity startup vc ≤ 100)
    ∧ (-100 ≤ text_similarity_score u v ∧ text_similarity_score u v ≤ 100) := by
  refine ⟨?_, ?_, ?_, ?_, ?_, ?_⟩
  · unfold calculate_industry_alignment
    dsimp only
    split_ifs <;> norm_num
  · unfold industry_alignment_optimized
    dsimp only
    split_ifs <;> norm_num
  · unfold calculate_stage_alignment
    dsimp only
    split_ifs <;> first | exact stage_loop_bounds _ _ | norm_num
  · unfold calculate_geographic_alignment
    dsimp only
    split_ifs <;> norm_num
  · unfold calculate_network_proximity
    split_ifs with h
    · norm_num
    · constructor
      · refine le_min (by norm_num) ?_
        apply div_nonneg
        · apply List.sum_nonneg
          intro x hx
          obtain ⟨f, _, rfl⟩ := List.mem_map.mp hx
          exact founder_network_points_nonneg f
        · positivity
      · exact min_le_left _ _
  · have habs := abs_cosine_similarity_le_one u v
    have hpair := abs_le.mp habs
    unfold text_similarity_score
    constructor <;> nlinarith [hpair.1, hpair.2]
